import Mathlib

/-!
Verification of the Site-Estoque inventory client.

This file gives a shallow embedding of the data model and the operations of the
repository (a React/TypeScript inventory application) and proves properties of
them.  JavaScript numbers that hold integer quantities (stock, thresholds) are
embedded as Int; prices are embedded as Rat.  JavaScript truthiness on strings
and numbers (empty string and 0 are falsy) is modelled explicitly by the js
helper functions.  Optional fields become Option; code that can throw becomes a
function of an Except-valued outcome parameter.
-/

namespace Estoque

/-- JS truthiness of a string: falsy iff empty. -/
def jsTruthyStr (s : String) : Bool := s ≠ ""

/-- The JS string trim: strips leading and trailing whitespace. Implemented over the
character list so that it evaluates by reduction. -/
def jsTrim (s : String) : String :=
  ⟨((s.data.dropWhile Char.isWhitespace).reverse.dropWhile Char.isWhitespace).reverse⟩

/-- JS truthiness of a possibly-absent string: null and the empty string are falsy. -/
def jsTruthyOpt : Option String → Bool
  | some s => jsTruthyStr s
  | none => false

/-- JS a || b for possibly-absent strings: keeps a when truthy, else the fallback. -/
def jsOrStr (a : Option String) (fb : String) : String :=
  match a with
  | some s => if s = "" then fb else s
  | none => fb

/-- JS a || b for possibly-absent numbers: 0 and absence fall through to the fallback. -/
def jsOrRat (a : Option Rat) (fb : Rat) : Rat :=
  match a with
  | some v => if v = 0 then fb else v
  | none => fb

/-- The Item record of axiosconfig.ts (current model: per-item threshold and two prices). -/
structure Item where
  id : String
  title : String
  description : Option String := none
  category : Option String := none
  distributer : String
  unit : Option String := none
  stock : Int
  low_stock_threshold : Option Int := none
  purchase_price : Option Rat := none
  sell_price : Option Rat := none
  barcode : Option String := none
  image : Option String := none
  associatedUser : String := ""
deriving DecidableEq, Repr

/-! ### C1: the low-stock query -/

/-- Modelled from the spec: the backend endpoint GET /api/items/low-stock is not in the
frontend sources; axiosconfig.ts getDashboardData delegates to it with a default_threshold
parameter. Per the spec, the low-stock query returns exactly the items whose stock is at
most their own threshold, falling back to the supplied default when none is configured. -/
def effectiveThreshold (i : Item) (defaultThreshold : Int) : Int :=
  i.low_stock_threshold.getD defaultThreshold

/-- Modelled from the spec: the backend low-stock query (see effectiveThreshold). -/
def lowStockQuery (defaultThreshold : Int) (items : List Item) : List Item :=
  items.filter (fun i => decide (i.stock ≤ effectiveThreshold i defaultThreshold))

/-- The legacy client-side computation in the older copy of the dashboard service
(getDashboardData): it filters allProducts by stock at most lowStockThreshold, a single
global threshold, ignoring any per-item configuration. -/
def legacyDashboardLowStock (lowStockThreshold : Int) (products : List Item) : List Item :=
  products.filter (fun p => decide (p.stock ≤ lowStockThreshold))

/-- An item whose own threshold (3) is below its stock (5): not low stock by its own
threshold, yet below the global default of 10. -/
def itemOwnThreshold : Item :=
  { id := "1", title := "Widget", distributer := "Acme", stock := 5,
    low_stock_threshold := some 3 }

/-! ### C2 and C7: stock transactions -/

/-- The StockTransactionType enum of axiosconfig.ts: loss, damage, return.
The source value named return is embedded as ret (return is a Lean keyword). -/
inductive StockTransactionType where
  | loss
  | damage
  | ret
deriving DecidableEq, Repr

/-- The StockTransaction record of axiosconfig.ts. -/
structure StockTransaction where
  id : String
  item_id : String
  transaction_type : StockTransactionType
  quantity : Int
  reason : String
  notes : Option String := none
  cost_impact : Option Rat := none
  reference_number : Option String := none
  associated_user : String
  created_at : String
  updated_at : Option String := none
deriving DecidableEq, Repr

/-- The CreateStockTransactionData payload of axiosconfig.ts. -/
structure CreateStockTransactionData where
  item_id : String
  transaction_type : StockTransactionType
  quantity : Int
  reason : String
  notes : Option String := none
  cost_impact : Option Rat := none
  reference_number : Option String := none
deriving DecidableEq, Repr

/-- The UpdateStockTransactionData payload of axiosconfig.ts: it can carry only the
four descriptive fields, never quantity, type, item or owner. -/
structure UpdateStockTransactionData where
  reason : Option String := none
  notes : Option String := none
  cost_impact : Option Rat := none
  reference_number : Option String := none
deriving DecidableEq, Repr

/-- The create-transaction submit gate of StockTransactions.tsx: the dialog button is
disabled when formData.item_id is falsy, formData.reason is falsy, or quantity is at
most 0; a creation request can only be issued when this returns true. -/
def canSubmitCreateTransaction (f : CreateStockTransactionData) : Bool :=
  jsTruthyStr f.item_id && jsTruthyStr f.reason && decide (0 < f.quantity)

/-- A valid create form used to witness the gate. -/
def sampleCreateTx : CreateStockTransactionData :=
  { item_id := "1", transaction_type := .loss, quantity := 2, reason := "broken" }

/-- A create form with a nonpositive quantity, blocked by the gate. -/
def sampleCreateTxBad : CreateStockTransactionData :=
  { item_id := "1", transaction_type := .loss, quantity := 0, reason := "broken" }

/-- Modelled from the spec: the backend PUT handler for stock transactions is not in
the frontend sources. Per the spec the log is append-mostly, edits being allowed on
the descriptive fields only, so the update merges exactly the fields the
UpdateStockTransactionData payload provides. -/
def applyTransactionUpdate (t : StockTransaction) (u : UpdateStockTransactionData) : StockTransaction :=
  { t with
    reason := u.reason.getD t.reason,
    notes := match u.notes with | some v => some v | none => t.notes,
    cost_impact := match u.cost_impact with | some v => some v | none => t.cost_impact,
    reference_number :=
      match u.reference_number with | some v => some v | none => t.reference_number }

/-! ### C3: the 401 response interceptor -/

/-- Outcome of one HTTP attempt, as the interceptor distinguishes them. -/
inductive HttpResp where
  | success
  | err401
  | errOther
deriving DecidableEq, Repr

/-- Observable result of running the interceptor on one original request. -/
structure InterceptorResult where
  /-- true when the promise resolves, false when it rejects. -/
  resolved : Bool
  /-- the response the caller finally sees. -/
  finalResp : HttpResp
  /-- how many times refreshAccessToken was invoked. -/
  refreshCalls : Nat
  /-- how many HTTP requests were sent in total (1 = original only, 2 = original plus retry). -/
  requests : Nat
deriving DecidableEq, Repr

/-- Shallow embedding of the axios response interceptor of axiosconfig.ts.
first answers the original request, sent without the retry marker; second answers
the retried request, sent with the marker set; refreshOk is the boolean
refreshAccessToken resolves to (it never throws: it catches internally).
On a 401 without the marker the interceptor sets the marker, calls the refresh once
and, only when it succeeds, resends the original request; the resent request carries
the marker, so a recurring 401 is rejected without a further refresh. -/
def runInterceptor (first second : HttpResp) (refreshOk : Bool) : InterceptorResult :=
  match first with
  | .success => { resolved := true, finalResp := .success, refreshCalls := 0, requests := 1 }
  | .err401 =>
    if refreshOk then
      match second with
      | .success => { resolved := true, finalResp := .success, refreshCalls := 1, requests := 2 }
      | r => { resolved := false, finalResp := r, refreshCalls := 1, requests := 2 }
    else
      { resolved := false, finalResp := .err401, refreshCalls := 1, requests := 1 }
  | .errOther => { resolved := false, finalResp := .errOther, refreshCalls := 0, requests := 1 }

/-! ### C4 and C5: the add-product wizard (SearchBar) and the two edit forms -/

/-- The CardFormData of the add-product wizard in SearchBar/SearchBar.tsx. -/
structure CardFormData where
  title : String
  description : String := ""
  category : String := ""
  distributer : String
  unit : String
  stock : Int
  low_stock_threshold : Option Int := some 10
  purchase_price : Rat := 0
  sell_price : Rat := 0
  image : String := ""
deriving DecidableEq, Repr

namespace SearchBar

/-- getStepErrors of SearchBar/SearchBar.tsx: the per-step validation, returning the
names of the fields in error. isValidUrl delegates to the browser URL constructor and
is taken as a parameter. Step 0 checks the title (required, at least 2 characters);
step 1 checks distributor, unit, nonnegative stock and, when configured, nonnegative
low_stock_threshold; step 2 checks nonnegative prices and the optional image URL. -/
def getStepErrors (isValidUrl : String → Bool) (f : CardFormData) (step : Nat) : List String :=
  match step with
  | 0 =>
    if (jsTrim f.title) = "" then ["title"]
    else if f.title.length < 2 then ["title"]
    else []
  | 1 =>
    (if (jsTrim f.distributer) = "" then ["distributer"] else []) ++
    (if (jsTrim f.unit) = "" then ["unit"] else []) ++
    (if f.stock < 0 then ["stock"] else []) ++
    (match f.low_stock_threshold with
     | some t => if t < 0 then ["low_stock_threshold"] else []
     | none => [])
  | 2 =>
    (if f.purchase_price < 0 then ["purchase_price"] else []) ++
    (if f.sell_price < 0 then ["sell_price"] else []) ++
    (if jsTruthyStr f.image && !isValidUrl f.image then ["image"] else [])
  | _ => []

/-- isFormValid of SearchBar/SearchBar.tsx: the submit button is enabled only when
this holds; it requires trimmed title, distributor and unit nonempty, nonnegative
stock and prices, and no validation error on any step. -/
def isFormValid (isValidUrl : String → Bool) (f : CardFormData) : Bool :=
  let allErrors :=
    getStepErrors isValidUrl f 0 ++ getStepErrors isValidUrl f 1 ++ getStepErrors isValidUrl f 2
  decide ((jsTrim f.title) ≠ "") && decide ((jsTrim f.distributer) ≠ "") &&
    decide ((jsTrim f.unit) ≠ "") && decide (0 ≤ f.stock) &&
    decide (0 ≤ f.purchase_price) && decide (0 ≤ f.sell_price) && allErrors.isEmpty

/-- Alert severities used by the wizard snackbar. -/
inductive Severity where
  | success
  | error
  | info
  | warning
deriving DecidableEq, Repr

/-- The wizard state the SearchBar component keeps: the active step, the current
validation errors, whether the dialog is open, and the snackbar alert. -/
structure WizardState where
  activeStep : Nat
  formErrors : List String := []
  dialogOpen : Bool := true
  qrAlert : Option (String × Severity) := none
deriving DecidableEq, Repr

/-- handleNext of SearchBar/SearchBar.tsx: validates the active step, stores the
errors, and advances exactly when there are none. -/
def handleNext (isValidUrl : String → Bool) (f : CardFormData) (s : WizardState) : WizardState :=
  let errors := getStepErrors isValidUrl f s.activeStep
  if errors.isEmpty then
    { s with activeStep := s.activeStep + 1, formErrors := errors }
  else
    { s with formErrors := errors }

/-- handleBack of SearchBar/SearchBar.tsx: always moves one step back, unconditionally. -/
def handleBack (s : WizardState) : WizardState :=
  { s with activeStep := s.activeStep - 1 }

/-- handleCloseDialog of SearchBar/SearchBar.tsx: closes the dialog, resets the step
and the errors. -/
def handleCloseDialog (s : WizardState) : WizardState :=
  { s with dialogOpen := false, activeStep := 0, formErrors := [] }

/-- handleSubmit of SearchBar/SearchBar.tsx: validates step 2; when valid, awaits the
creation call (its outcome is the created parameter: true when it resolves). On
success the dialog is closed and a success alert shown; on failure the dialog stays
open and an error alert is shown. -/
def handleSubmit (isValidUrl : String → Bool) (f : CardFormData) (created : Bool)
    (s : WizardState) : WizardState :=
  let errors := getStepErrors isValidUrl f 2
  if errors.isEmpty then
    if created then
      { handleCloseDialog { s with formErrors := errors } with
        qrAlert := some ("Produto criado com sucesso!", .success) }
    else
      { s with formErrors := errors,
               qrAlert := some ("Erro ao criar produto. Tente novamente.", .error) }
  else
    { s with formErrors := errors }

end SearchBar

/-- Outcome of an update handler: either rejected with a validation message before any
request is made, or a request is issued with the given payload. -/
inductive UpdateOutcome (π : Type) where
  | rejected (msg : String)
  | request (payload : π)
deriving DecidableEq, Repr

namespace HomePage

/-- The ManageProductFormData of HomePage.tsx (the old single-price model). -/
structure ManageFormData where
  name : String
  description : String := ""
  category : String := ""
  distributer : String
  unit : String := ""
  stock : Int
  price : Rat
  image : String := ""
deriving DecidableEq, Repr

/-- The payload HomePage.tsx handleUpdateProduct sends to the backend. -/
structure UpdatePayload where
  title : String
  description : Option String := none
  category : Option String := none
  distributer : String
  unit : Option String := none
  stock : Int
  price : Rat
  image : Option String := none
deriving DecidableEq, Repr

/-- Trims a string and turns an empty result into absence, as the JS idiom
value.trim() || undefined does. -/
def trimOrNone (s : String) : Option String :=
  if jsTrim s = "" then none else some (jsTrim s)

/-- handleUpdateProduct of HomePage.tsx: rejects a blank name, a blank distributor,
negative stock and a negative price with field-specific messages, in that order;
otherwise issues the update request with trimmed fields and clamped numbers. -/
def handleUpdateProduct (f : ManageFormData) : UpdateOutcome UpdatePayload :=
  if (jsTrim f.name) = "" then .rejected "Product name is required"
  else if (jsTrim f.distributer) = "" then .rejected "Distributor is required"
  else if f.stock < 0 then .rejected "Stock cannot be negative"
  else if f.price < 0 then .rejected "Price cannot be negative"
  else
    .request
      { title := (jsTrim f.name),
        description := trimOrNone f.description,
        category := trimOrNone f.category,
        distributer := (jsTrim f.distributer),
        unit := trimOrNone f.unit,
        stock := max 0 f.stock,
        price := max 0 f.price,
        image := trimOrNone f.image }

/-- The list state HomePage.tsx keeps for the products view. -/
structure ListState where
  products : List Item
  loading : Bool := true
deriving DecidableEq, Repr

/-- fetchProducts of HomePage.tsx, applied to a fetch outcome: on success the fetched
data replaces the list; on error the list is set to the empty array (the code comments
this as showing the empty state) and the only error report is a console log, no state
the user can see; loading ends either way. -/
def fetchProducts (_prev : ListState) (result : Except String (List Item)) : ListState :=
  match result with
  | .ok data => { products := data, loading := false }
  | .error _ => { products := [], loading := false }

end HomePage

namespace ManageProduct

/-- The ManageProductFormData of ManageProduct.tsx (current model: threshold and two
prices, all number fields plain). -/
structure FormData where
  title : String
  description : String := ""
  category : String := ""
  distributer : String
  unit : String := ""
  stock : Int
  low_stock_threshold : Int
  purchase_price : Rat := 0
  sell_price : Rat := 0
  image : String := ""
deriving DecidableEq, Repr

/-- The payload ManageProduct.tsx handleSave sends to the backend. -/
structure UpdatePayload where
  title : String
  description : Option String := none
  category : Option String := none
  distributer : String
  unit : Option String := none
  stock : Int
  low_stock_threshold : Int
  purchase_price : Rat
  sell_price : Rat
  image : Option String := none
deriving DecidableEq, Repr

/-- handleSave of ManageProduct.tsx: rejects a blank title, a blank distributor and
negative stock; it does not validate low_stock_threshold, it clamps it (and the
prices and the stock) with Math.max(0, _) and issues the request. -/
def handleSave (f : FormData) : UpdateOutcome UpdatePayload :=
  if (jsTrim f.title) = "" then .rejected "Nome do produto é obrigatório"
  else if (jsTrim f.distributer) = "" then .rejected "Fornecedor é obrigatório"
  else if f.stock < 0 then .rejected "Estoque não pode ser negativo"
  else
    .request
      { title := (jsTrim f.title),
        description := HomePage.trimOrNone f.description,
        category := HomePage.trimOrNone f.category,
        distributer := (jsTrim f.distributer),
        unit := HomePage.trimOrNone f.unit,
        stock := max 0 f.stock,
        low_stock_threshold := max 0 f.low_stock_threshold,
        purchase_price := max 0 f.purchase_price,
        sell_price := max 0 f.sell_price,
        image := HomePage.trimOrNone f.image }

/-- A save attempt with a negative low_stock_threshold and everything else valid. -/
def negThresholdForm : FormData :=
  { title := "Widget", distributer := "Acme", stock := 4, low_stock_threshold := -5 }

end ManageProduct

/-! ### C6: the activity-log list view -/

namespace ActivityLog

/-- The ActivityLogItem record of the activity-log page. The free-form metadata map is
embedded as an association list from keys to strings. -/
structure ActivityLogItem where
  id : String
  user_id : String
  activity_type : String
  description : String
  entity_id : Option String := none
  entity_type : Option String := none
  metadata : List (String × String) := []
  created_at : String
deriving DecidableEq, Repr

/-- What one successful fetch of the activity-log page returns: the page of
activities, the total count and the per-type statistics. -/
structure FetchData where
  activities : List ActivityLogItem
  count : Nat
  stats : List (String × Nat)
deriving DecidableEq, Repr

/-- The component state the activity-log page keeps. -/
structure PageState where
  activities : List ActivityLogItem
  error : Option String := none
  totalCount : Nat := 0
  stats : List (String × Nat) := []
  loading : Bool := true
deriving DecidableEq, Repr

/-- fetchActivities of the activity-log page, applied to a fetch outcome: on success
all three pieces of data are stored; on error the error banner is set from the
response detail (the JS fallback keeps the default text when the detail is falsy) and
the activities, count and stats are left untouched; loading ends either way. -/
def fetchActivities (prev : PageState) (result : Except (Option String) FetchData) : PageState :=
  match result with
  | .ok data =>
    { prev with activities := data.activities, totalCount := data.count,
                stats := data.stats, loading := false }
  | .error detail =>
    { prev with error := some (jsOrStr detail "Erro ao carregar histórico de atividades"),
                loading := false }

end ActivityLog

/-! ### C8: the item update -/

/-- A partial item update payload after the client field mapping: the fields the
backend PUT body may carry, each one optional. -/
structure ItemUpdatePayload where
  title : Option String := none
  description : Option String := none
  category : Option String := none
  distributer : Option String := none
  unit : Option String := none
  stock : Option Int := none
  low_stock_threshold : Option Int := none
  purchase_price : Option Rat := none
  sell_price : Option Rat := none
  barcode : Option String := none
  image : Option String := none
deriving DecidableEq, Repr

/-- Merge for a mandatory field: the payload value when provided, the old one otherwise. -/
def mergeField {α : Type} (u : Option α) (old : α) : α := u.getD old

/-- Merge for an optional field: the payload value when provided, the old one otherwise. -/
def mergeOpt {α : Type} (u : Option α) (old : Option α) : Option α :=
  match u with
  | some v => some v
  | none => old

/-- Modelled from the spec: the backend PUT /api/items/id handler is not in the
frontend sources; per the spec, update merges only the provided fields into the stored
item, leaving every other field unchanged. -/
def applyItemUpdate (i : Item) (p : ItemUpdatePayload) : Item :=
  { i with
    title := mergeField p.title i.title,
    description := mergeOpt p.description i.description,
    category := mergeOpt p.category i.category,
    distributer := mergeField p.distributer i.distributer,
    unit := mergeOpt p.unit i.unit,
    stock := mergeField p.stock i.stock,
    low_stock_threshold := mergeOpt p.low_stock_threshold i.low_stock_threshold,
    purchase_price := mergeOpt p.purchase_price i.purchase_price,
    sell_price := mergeOpt p.sell_price i.sell_price,
    barcode := mergeOpt p.barcode i.barcode,
    image := mergeOpt p.image i.image }

/-- The client-side payload updateProduct of axiosconfig.ts receives: a partial item
that may still carry the frontend display field name next to title. -/
structure ClientItemUpdate extends ItemUpdatePayload where
  name : Option String := none
deriving DecidableEq, Repr

/-- The field mapping inside updateProduct of axiosconfig.ts: when name is provided
and truthy it replaces title and is dropped; everything else passes through. (The
associatedUsers renaming branch is unreachable for payloads of the typed interface,
which only has associatedUser, and is omitted.) -/
def updateProductPayload (c : ClientItemUpdate) : ItemUpdatePayload :=
  { c.toItemUpdatePayload with
    title :=
      match c.name with
      | some s => if s = "" then c.title else some s
      | none => c.title }

/-! ### C9: authentication state -/

namespace Auth

/-- The client-side authentication state: the five localStorage keys auth.ts uses and
the axios default Authorization header. -/
structure AuthState where
  token : Option String := none
  refreshToken : Option String := none
  userId : Option String := none
  userEmail : Option String := none
  username : Option String := none
  authHeader : Option String := none
deriving DecidableEq, Repr

/-- logout of auth.ts: removes the five storage keys and deletes the default
Authorization header. -/
def logout (_s : AuthState) : AuthState :=
  { token := none, refreshToken := none, userId := none, userEmail := none,
    username := none, authHeader := none }

/-- getAuthToken of auth.ts. -/
def getAuthToken (s : AuthState) : Option String := s.token

/-- getCurrentUserId of auth.ts. -/
def getCurrentUserId (s : AuthState) : Option String := s.userId

/-- isAuthenticated of auth.ts: the double-negated conjunction of the token and the
user id, under JS truthiness. -/
def isAuthenticated (s : AuthState) : Bool :=
  jsTruthyOpt (getAuthToken s) && jsTruthyOpt (getCurrentUserId s)

/-- The body of a refresh response from the backend. -/
structure RefreshResponseData where
  access_token : Option String := none
  refresh_token : Option String := none
deriving DecidableEq, Repr

/-- refreshAccessToken of auth.ts, applied to the outcome of the refresh call: with no
stored refresh token it returns false without calling; when the call throws it logs
out (clearing all auth state) and returns false; when the response carries a truthy
access token it stores both tokens and the bearer header and returns true; otherwise
it returns false leaving the state alone. -/
def refreshAccessToken (s : AuthState) (resp : Except Unit RefreshResponseData) :
    Bool × AuthState :=
  if !jsTruthyOpt s.refreshToken then (false, s)
  else
    match resp with
    | .error _ => (false, logout s)
    | .ok r =>
      if jsTruthyOpt r.access_token then
        (true,
         { s with token := r.access_token,
                  refreshToken := r.refresh_token,
                  authHeader := some ("Bearer " ++ r.access_token.getD "") })
      else (false, s)

/-- A logged-in state used to witness the refresh failure path. -/
def sampleAuthState : AuthState :=
  { token := some "tok", refreshToken := some "ref", userId := some "u1",
    userEmail := some "a@b.c", username := some "ana", authHeader := some "Bearer tok" }

end Auth

/-! ### C10: dashboard inventory value and top products -/

/-- The price the current dashboard service uses: sell_price or else purchase_price or
else 0, under the JS truthiness fallback, so a price of 0 falls through. -/
def jsPrice (i : Item) : Rat :=
  jsOrRat i.sell_price (jsOrRat i.purchase_price 0)

/-- The price-selection rule as the spec sentence reads: the sell price when present,
otherwise the purchase price, otherwise 0 - presence, not truthiness. This definition
follows the claim wording and exists to be compared with jsPrice. -/
def specPrice (i : Item) : Rat :=
  i.sell_price.getD (i.purchase_price.getD 0)

/-- The total inventory value getDashboardData of axiosconfig.ts computes:
a left fold accumulating price times stock over all products. -/
def getDashboardTotalValue (products : List Item) : Rat :=
  products.foldl (fun sum p => sum + jsPrice p * (p.stock : Rat)) 0

/-- The total inventory value as the claim reads it: the sum of specPrice times stock. -/
def specTotalValue (products : List Item) : Rat :=
  (products.map (fun p => specPrice p * (p.stock : Rat))).sum

/-- getTopProductsByValue of axiosconfig.ts: sorts the products by descending
inventory value (using the same truthiness price fallback) and takes the first
limit of them. -/
def getTopProductsByValue (limit : Nat) (products : List Item) : List Item :=
  (products.mergeSort
    (fun a b => decide (jsPrice b * (b.stock : Rat) ≤ jsPrice a * (a.stock : Rat)))).take limit

/-- An item whose sell price is 0 (present but falsy) next to a nonzero purchase
price: truthiness and presence pick different prices. -/
def zeroSellItem : Item :=
  { id := "z", title := "Zeroed", distributer := "Acme", stock := 2,
    purchase_price := some 5, sell_price := some 0 }

/-- The combined validation-error list of all three wizard steps, as isFormValid of
SearchBar/SearchBar.tsx builds it. -/
def SearchBar.allStepErrors (isValidUrl : String → Bool) (f : CardFormData) : List String :=
  SearchBar.getStepErrors isValidUrl f 0 ++ SearchBar.getStepErrors isValidUrl f 1 ++
    SearchBar.getStepErrors isValidUrl f 2

/-- A wizard form with a negative stock. -/
def negStockCard : CardFormData :=
  { title := "Widget", distributer := "Acme", unit := "pcs", stock := -1 }

/-- A wizard form with a negative configured low-stock threshold. -/
def negThresholdCard : CardFormData :=
  { title := "Widget", distributer := "Acme", unit := "pcs", stock := 4,
    low_stock_threshold := some (-2) }

/-- A wizard form with no validation error on any step. -/
def validCard : CardFormData :=
  { title := "Widget", distributer := "Acme", unit := "pcs", stock := 4 }

/-- A wizard form whose step-2 validation fails (negative sell price). -/
def negSellPriceCard : CardFormData :=
  { title := "Widget", distributer := "Acme", unit := "pcs", stock := 4,
    sell_price := -1 }

/-- The wizard state right after opening the dialog on the final step. -/
def finalStepState : SearchBar.WizardState :=
  { activeStep := 2 }

/-- A HomePage edit form with a negative stock. -/
def negStockHomeForm : HomePage.ManageFormData :=
  { name := "Ball", distributer := "Acme", stock := -1, price := 2 }

/-- A valid HomePage edit form. -/
def validHomeForm : HomePage.ManageFormData :=
  { name := "Ball", distributer := "Acme", stock := 3, price := 2 }

/-- An arbitrary HomePage update payload, used to state that no request is issued. -/
def dummyHomePayload : HomePage.UpdatePayload :=
  { title := "Ball", distributer := "Acme", stock := 0, price := 0 }

/-- The payload handleUpdateProduct issues for validHomeForm. -/
def validHomePayload : HomePage.UpdatePayload :=
  { title := "Ball", distributer := "Acme", stock := 3, price := 2 }

/-- A ManageProduct save form with a negative stock. -/
def negStockManageForm : ManageProduct.FormData :=
  { title := "Widget", distributer := "Acme", stock := -1, low_stock_threshold := 10 }

/-- An arbitrary ManageProduct update payload, used to state that no request is issued. -/
def dummyManagePayload : ManageProduct.UpdatePayload :=
  { title := "Widget", distributer := "Acme", stock := 0, low_stock_threshold := 0,
    purchase_price := 0, sell_price := 0 }

/-- The payload handleSave actually issues for negThresholdForm: the negative
threshold arrives clamped to 0 instead of being rejected. -/
def savedNegThresholdPayload : ManageProduct.UpdatePayload :=
  { title := "Widget", distributer := "Acme", stock := 4, low_stock_threshold := 0,
    purchase_price := 0, sell_price := 0 }

/-- An empty refresh response body: no access token. -/
def emptyRefreshResp : Auth.RefreshResponseData := {}

/-! ## Theorems -/

/-- Helper: a left fold that adds an image of each element equals the accumulator plus
the sum of the mapped list. -/
theorem foldl_add_eq_sum {α : Type} (f : α → Rat) (l : List α) (acc : Rat) :
    l.foldl (fun s p => s + f p) acc = acc + (l.map f).sum := by
  induction l generalizing acc with
  | nil => simp
  | cons x xs ih => simp [ih, add_assoc]

/-- Helper: merging the same provided value twice into a mandatory field is the same
as merging it once. -/
theorem mergeField_idem {α : Type} (u : Option α) (old : α) :
    mergeField u (mergeField u old) = mergeField u old := by
  cases u <;> rfl

/-- Helper: merging the same provided value twice into an optional field is the same
as merging it once. -/
theorem mergeOpt_idem {α : Type} (u old : Option α) :
    mergeOpt u (mergeOpt u old) = mergeOpt u old := by
  cases u <;> rfl

/-- C1: for every list of items and every default threshold, the low-stock query
returns exactly the items whose stock is at most their own effective threshold (their
configured low_stock_threshold, the default only when none is configured) - and it is
not the single-global-constant filter of the legacy dashboard code, from which it
differs on an item whose own threshold is stricter than the default. -/
theorem lowStockQuery_exact :
    (∀ (d : Int) (items : List Item) (x : Item),
        x ∈ lowStockQuery d items ↔ x ∈ items ∧ x.stock ≤ effectiveThreshold x d)
    ∧ lowStockQuery 10 [itemOwnThreshold] ≠ legacyDashboardLowStock 10 [itemOwnThreshold] := by
  constructor
  · intro d items x
    simp [lowStockQuery, List.mem_filter]
  · decide

/-- C2: the create-transaction gate only lets through forms whose quantity is positive
and whose type is one of loss, damage, return; a form with nonpositive quantity is
always blocked. -/
theorem createTransaction_gate :
    (∀ f : CreateStockTransactionData,
        canSubmitCreateTransaction f = true →
          0 < f.quantity ∧
            (f.transaction_type = .loss ∨ f.transaction_type = .damage ∨
              f.transaction_type = .ret))
    ∧ ∀ f : CreateStockTransactionData,
        f.quantity ≤ 0 → canSubmitCreateTransaction f = false := by
  constructor
  · intro f h
    refine ⟨?_, ?_⟩
    · simp [canSubmitCreateTransaction] at h
      exact h.2
    · cases f.transaction_type <;> simp
  · intro f h
    have hq : ¬ (0 < f.quantity) := not_lt.mpr h
    simp [canSubmitCreateTransaction, hq]

/-- Witness for C2 at concrete forms: a valid form passes the gate and a
zero-quantity form is blocked. -/
theorem createTransaction_gate_witness :
    (0 < sampleCreateTx.quantity ∧
      (sampleCreateTx.transaction_type = .loss ∨ sampleCreateTx.transaction_type = .damage ∨
        sampleCreateTx.transaction_type = .ret))
    ∧ canSubmitCreateTransaction sampleCreateTxBad = false :=
  ⟨createTransaction_gate.1 sampleCreateTx (by decide),
   createTransaction_gate.2 sampleCreateTxBad (by decide)⟩

/-- C3 counterexample: a request that fails with 401 while the refresh fails (for
instance with no stored refresh token) triggers the single refresh attempt but no
retry at all, against the claim that one retry always follows. -/
theorem interceptor401_no_retry_on_refresh_failure :
    (runInterceptor .err401 .success false).refreshCalls = 1 ∧
    (runInterceptor .err401 .success false).requests ≠ 2 := by
  decide

/-- C3 amended: a 401 on an unmarked request triggers exactly one refresh attempt;
the original request is resent exactly once when the refresh succeeds and never when
it fails; a 401 recurring on the resent (marked) request is rejected to the caller
without any further refresh; no scenario refreshes more than once. -/
theorem interceptor401_single_refresh :
    ∀ (second : HttpResp) (refreshOk : Bool),
      (runInterceptor .err401 second refreshOk).refreshCalls = 1 ∧
      (runInterceptor .err401 second refreshOk).requests = (if refreshOk then 2 else 1) ∧
      (runInterceptor .err401 .err401 true).resolved = false ∧
      (runInterceptor .err401 .err401 true).finalResp = .err401 ∧
      ∀ first : HttpResp, (runInterceptor first second refreshOk).refreshCalls ≤ 1 := by
  intro second refreshOk
  refine ⟨?_, ?_, by decide, by decide, ?_⟩
  · cases second <;> cases refreshOk <;> decide
  · cases second <;> cases refreshOk <;> decide
  · intro first
    cases first <;> cases second <;> cases refreshOk <;> decide

/-- Helper: a concatenation of three lists with a nonempty middle is nonempty. -/
theorem isEmpty_append_middle_false {α : Type} (a b c : List α) (h : b ≠ []) :
    (a ++ b ++ c).isEmpty = false := by
  cases b with
  | nil => exact absurd rfl h
  | cons x xs => cases a <;> rfl

/-- C4 counterexample: a ManageProduct save whose low_stock_threshold is negative is
not rejected; the update request is issued, carrying the threshold clamped to 0. -/
theorem manageSave_negThreshold_counterexample :
    ManageProduct.negThresholdForm.low_stock_threshold < 0 ∧
    ManageProduct.handleSave ManageProduct.negThresholdForm =
      .request savedNegThresholdPayload := by
  constructor
  · decide
  · decide

/-- C4 amended: the add-product wizard refuses to submit a form with negative stock
or a negative configured threshold; the HomePage and ManageProduct edit forms issue no
request when stock is negative; and every update payload either form issues carries
nonnegative stock, threshold and price - but ManageProduct does not reject a negative
low_stock_threshold, it clamps it to 0 and issues the request (see the
counterexample). -/
theorem negativeValues_validation :
    (∀ (url : String → Bool) (f : CardFormData),
        f.stock < 0 → SearchBar.isFormValid url f = false)
    ∧ (∀ (url : String → Bool) (f : CardFormData) (t : Int),
        f.low_stock_threshold = some t → t < 0 → SearchBar.isFormValid url f = false)
    ∧ (∀ (f : HomePage.ManageFormData) (p : HomePage.UpdatePayload),
        f.stock < 0 → HomePage.handleUpdateProduct f ≠ .request p)
    ∧ (∀ (f : ManageProduct.FormData) (p : ManageProduct.UpdatePayload),
        f.stock < 0 → ManageProduct.handleSave f ≠ .request p)
    ∧ (∀ (f : ManageProduct.FormData) (p : ManageProduct.UpdatePayload),
        ManageProduct.handleSave f = .request p →
          0 ≤ p.stock ∧ 0 ≤ p.low_stock_threshold)
    ∧ ∀ (f : HomePage.ManageFormData) (p : HomePage.UpdatePayload),
        HomePage.handleUpdateProduct f = .request p → 0 ≤ p.stock ∧ 0 ≤ p.price := by
  refine ⟨?_, ?_, ?_, ?_, ?_, ?_⟩
  · intro url f h
    have hd : decide (0 ≤ f.stock) = false := decide_eq_false (not_le.mpr h)
    simp [SearchBar.isFormValid, hd]
  · intro url f t hsome ht
    have hne : SearchBar.getStepErrors url f 1 ≠ [] := by
      simp [SearchBar.getStepErrors, hsome, if_pos ht, List.append_eq_nil]
    have hemp :=
      isEmpty_append_middle_false (SearchBar.getStepErrors url f 0)
        (SearchBar.getStepErrors url f 1) (SearchBar.getStepErrors url f 2) hne
    simp only [SearchBar.isFormValid, hemp, Bool.and_false]
  · intro f p h heq
    simp only [HomePage.handleUpdateProduct] at heq
    split_ifs at heq
  · intro f p h heq
    simp only [ManageProduct.handleSave] at heq
    split_ifs at heq
  · intro f p heq
    simp only [ManageProduct.handleSave] at heq
    split_ifs at heq
    injection heq with hp
    subst hp
    exact ⟨le_max_left 0 _, le_max_left 0 _⟩
  · intro f p heq
    simp only [HomePage.handleUpdateProduct] at heq
    split_ifs at heq
    injection heq with hp
    subst hp
    exact ⟨le_max_left 0 _, le_max_left 0 _⟩

/-- Witness for C4 at concrete forms. -/
theorem negativeValues_validation_witness :
    SearchBar.isFormValid (fun _ => true) negStockCard = false ∧
    SearchBar.isFormValid (fun _ => true) negThresholdCard = false ∧
    HomePage.handleUpdateProduct negStockHomeForm ≠ .request dummyHomePayload ∧
    ManageProduct.handleSave negStockManageForm ≠ .request dummyManagePayload ∧
    (0 ≤ savedNegThresholdPayload.stock ∧ 0 ≤ savedNegThresholdPayload.low_stock_threshold) ∧
    (0 ≤ validHomePayload.stock ∧ 0 ≤ validHomePayload.price) :=
  ⟨negativeValues_validation.1 (fun _ => true) negStockCard (by decide),
   negativeValues_validation.2.1 (fun _ => true) negThresholdCard (-2) (by decide) (by decide),
   negativeValues_validation.2.2.1 negStockHomeForm dummyHomePayload (by decide),
   negativeValues_validation.2.2.2.1 negStockManageForm dummyManagePayload (by decide),
   negativeValues_validation.2.2.2.2.1 ManageProduct.negThresholdForm
     savedNegThresholdPayload (by decide),
   negativeValues_validation.2.2.2.2.2 validHomeForm validHomePayload (by decide)⟩

/-- C5: the wizard advances from a step exactly when that step validates without
errors; going back is always allowed; and a submit that passes final validation
closes the dialog exactly when the creation call succeeds, while on failure the
dialog state is untouched (stays open) and the inline error alert is set; a submit
that fails validation also leaves the dialog state untouched. -/
theorem wizard_stepper_transitions :
    (∀ (url : String → Bool) (f : CardFormData) (s : SearchBar.WizardState),
        (SearchBar.handleNext url f s).activeStep =
          if (SearchBar.getStepErrors url f s.activeStep).isEmpty then s.activeStep + 1
          else s.activeStep)
    ∧ (∀ s : SearchBar.WizardState, (SearchBar.handleBack s).activeStep = s.activeStep - 1)
    ∧ (∀ (url : String → Bool) (f : CardFormData) (s : SearchBar.WizardState),
        (SearchBar.getStepErrors url f 2).isEmpty = true →
          (SearchBar.handleSubmit url f true s).dialogOpen = false ∧
          (SearchBar.handleSubmit url f false s).dialogOpen = s.dialogOpen ∧
          (SearchBar.handleSubmit url f false s).qrAlert =
            some ("Erro ao criar produto. Tente novamente.", SearchBar.Severity.error))
    ∧ ∀ (url : String → Bool) (f : CardFormData) (created : Bool)
        (s : SearchBar.WizardState),
        (SearchBar.getStepErrors url f 2).isEmpty = false →
          (SearchBar.handleSubmit url f created s).dialogOpen = s.dialogOpen := by
  refine ⟨?_, ?_, ?_, ?_⟩
  · intro url f s
    simp only [SearchBar.handleNext]
    split <;> rfl
  · intro s
    rfl
  · intro url f s h
    refine ⟨?_, ?_, ?_⟩ <;>
      simp [SearchBar.handleSubmit, SearchBar.handleCloseDialog, h]
  · intro url f created s h
    simp [SearchBar.handleSubmit, h]

/-- Witness for C5 at a concrete valid form, an invalid form and the final-step
state. -/
theorem wizard_stepper_transitions_witness :
    ((SearchBar.handleNext (fun _ => true) validCard finalStepState).activeStep =
      if (SearchBar.getStepErrors (fun _ => true) validCard finalStepState.activeStep).isEmpty
      then finalStepState.activeStep + 1 else finalStepState.activeStep)
    ∧ (SearchBar.handleBack finalStepState).activeStep = finalStepState.activeStep - 1
    ∧ ((SearchBar.handleSubmit (fun _ => true) validCard true finalStepState).dialogOpen = false ∧
        (SearchBar.handleSubmit (fun _ => true) validCard false finalStepState).dialogOpen =
          finalStepState.dialogOpen ∧
        (SearchBar.handleSubmit (fun _ => true) validCard false finalStepState).qrAlert =
          some ("Erro ao criar produto. Tente novamente.", SearchBar.Severity.error))
    ∧ (SearchBar.handleSubmit (fun _ => true) negSellPriceCard true finalStepState).dialogOpen =
        finalStepState.dialogOpen :=
  ⟨wizard_stepper_transitions.1 (fun _ => true) validCard finalStepState,
   wizard_stepper_transitions.2.1 finalStepState,
   wizard_stepper_transitions.2.2.1 (fun _ => true) validCard finalStepState (by decide),
   wizard_stepper_transitions.2.2.2 (fun _ => true) negSellPriceCard true finalStepState
     (by decide)⟩

/-- C6 counterexample: when the HomePage product fetch fails, the products held
before the failure are dropped and the list becomes empty, against the claim that
prior data stays on screen. -/
theorem homeFetch_clears_list_counterexample :
    (HomePage.fetchProducts { products := [itemOwnThreshold], loading := false }
        (.error "Network Error")).products = [] ∧
    ([itemOwnThreshold] : List Item) ≠ ([] : List Item) := by
  constructor
  · rfl
  · decide

/-- C6 amended: the activity-log view surfaces a fetch error in its error banner and
keeps the previously loaded rows, but the HomePage products view replaces the list
with the empty array on a failed fetch (its only error report is a console log). -/
theorem fetch_error_surfacing :
    (∀ (prev : ActivityLog.PageState) (detail : Option String),
        (ActivityLog.fetchActivities prev (.error detail)).activities = prev.activities ∧
        (ActivityLog.fetchActivities prev (.error detail)).error ≠ none)
    ∧ ∀ (prev : HomePage.ListState) (e : String),
        (HomePage.fetchProducts prev (.error e)).products = [] := by
  refine ⟨?_, ?_⟩
  · intro prev detail
    exact ⟨rfl, by simp [ActivityLog.fetchActivities]⟩
  · intro prev e
    rfl

/-- C7: a stock-transaction update changes at most the four descriptive fields; the
quantity, the type, the item reference and the owner (and the id and creation time)
are unchanged by every update. -/
theorem transactionUpdate_frame :
    ∀ (t : StockTransaction) (u : UpdateStockTransactionData),
      (applyTransactionUpdate t u).quantity = t.quantity ∧
      (applyTransactionUpdate t u).transaction_type = t.transaction_type ∧
      (applyTransactionUpdate t u).item_id = t.item_id ∧
      (applyTransactionUpdate t u).associated_user = t.associated_user ∧
      (applyTransactionUpdate t u).id = t.id ∧
      (applyTransactionUpdate t u).created_at = t.created_at := by
  intro t u
  exact ⟨rfl, rfl, rfl, rfl, rfl, rfl⟩

/-- C8: the item update is idempotent - applying the same partial update twice gives
the same item as applying it once, both for a raw payload and for a payload that went
through the client name-to-title mapping of updateProduct. -/
theorem updateItem_idempotent :
    (∀ (i : Item) (p : ItemUpdatePayload),
        applyItemUpdate (applyItemUpdate i p) p = applyItemUpdate i p)
    ∧ ∀ (i : Item) (c : ClientItemUpdate),
        applyItemUpdate (applyItemUpdate i (updateProductPayload c)) (updateProductPayload c)
          = applyItemUpdate i (updateProductPayload c) := by
  have h : ∀ (i : Item) (p : ItemUpdatePayload),
      applyItemUpdate (applyItemUpdate i p) p = applyItemUpdate i p := by
    intro i p
    simp [applyItemUpdate, mergeField_idem, mergeOpt_idem]
  exact ⟨h, fun i c => h i (updateProductPayload c)⟩

/-- C9: when the refresh call throws, refreshAccessToken returns false, the whole
client auth state (all five storage keys and the default header) is cleared in the
same step, and isAuthenticated is false afterwards; when the call returns but carries
no (truthy) access token, it also returns false. -/
theorem refreshFailure_clears_auth :
    (∀ s : Auth.AuthState, jsTruthyOpt s.refreshToken = true →
        Auth.refreshAccessToken s (.error ()) = (false, Auth.logout s) ∧
        Auth.isAuthenticated (Auth.refreshAccessToken s (.error ())).2 = false ∧
        (Auth.refreshAccessToken s (.error ())).2.token = none ∧
        (Auth.refreshAccessToken s (.error ())).2.refreshToken = none ∧
        (Auth.refreshAccessToken s (.error ())).2.userId = none ∧
        (Auth.refreshAccessToken s (.error ())).2.userEmail = none ∧
        (Auth.refreshAccessToken s (.error ())).2.username = none ∧
        (Auth.refreshAccessToken s (.error ())).2.authHeader = none)
    ∧ ∀ (s : Auth.AuthState) (r : Auth.RefreshResponseData),
        jsTruthyOpt r.access_token = false →
        (Auth.refreshAccessToken s (.ok r)).1 = false := by
  constructor
  · intro s h
    have hres : Auth.refreshAccessToken s (.error ()) = (false, Auth.logout s) := by
      simp [Auth.refreshAccessToken, h]
    rw [hres]
    refine ⟨rfl, ?_, rfl, rfl, rfl, rfl, rfl, rfl⟩
    simp [Auth.isAuthenticated, Auth.logout, Auth.getAuthToken, Auth.getCurrentUserId,
      jsTruthyOpt]
  · intro s r h
    by_cases hrt : jsTruthyOpt s.refreshToken = true
    · simp [Auth.refreshAccessToken, hrt, h]
    · rw [Bool.not_eq_true] at hrt
      simp [Auth.refreshAccessToken, hrt]

/-- Witness for C9 at a concrete logged-in state and an empty refresh response. -/
theorem refreshFailure_clears_auth_witness :
    (Auth.refreshAccessToken Auth.sampleAuthState (.error ()) =
        (false, Auth.logout Auth.sampleAuthState) ∧
      Auth.isAuthenticated (Auth.refreshAccessToken Auth.sampleAuthState (.error ())).2 = false ∧
      (Auth.refreshAccessToken Auth.sampleAuthState (.error ())).2.token = none ∧
      (Auth.refreshAccessToken Auth.sampleAuthState (.error ())).2.refreshToken = none ∧
      (Auth.refreshAccessToken Auth.sampleAuthState (.error ())).2.userId = none ∧
      (Auth.refreshAccessToken Auth.sampleAuthState (.error ())).2.userEmail = none ∧
      (Auth.refreshAccessToken Auth.sampleAuthState (.error ())).2.username = none ∧
      (Auth.refreshAccessToken Auth.sampleAuthState (.error ())).2.authHeader = none)
    ∧ (Auth.refreshAccessToken Auth.sampleAuthState (.ok emptyRefreshResp)).1 = false :=
  ⟨refreshFailure_clears_auth.1 Auth.sampleAuthState (by decide),
   refreshFailure_clears_auth.2 Auth.sampleAuthState emptyRefreshResp (by decide)⟩

/-- C10 counterexample: an item with a present sell price of 0 next to a purchase
price of 5 and stock 2. The claim picks the present sell price and gets 0; the code
falls through the falsy 0 to the purchase price and gets 10. -/
theorem totalValue_presence_counterexample :
    getDashboardTotalValue [zeroSellItem] ≠ specTotalValue [zeroSellItem] ∧
    getDashboardTotalValue [zeroSellItem] = 10 ∧ specTotalValue [zeroSellItem] = 0 := by
  refine ⟨?_, ?_, ?_⟩ <;>
    norm_num [getDashboardTotalValue, specTotalValue, jsPrice, jsOrRat, specPrice,
      zeroSellItem]

/-- C10 amended: the dashboard total is the sum over all products of price times
stock where the price is the sell price when truthy (present and nonzero), else the
purchase price when truthy, else 0; the top-products ranking uses the same jsPrice
rule (definitionally) and returns min limit length items, in particular at most the
requested limit. -/
theorem dashboardValue_truthy_fallback :
    (∀ products : List Item,
        getDashboardTotalValue products =
          (products.map (fun p => jsPrice p * (p.stock : Rat))).sum)
    ∧ (∀ (limit : Nat) (products : List Item),
        (getTopProductsByValue limit products).length = min limit products.length)
    ∧ ∀ (limit : Nat) (products : List Item),
        (getTopProductsByValue limit products).length ≤ limit := by
  refine ⟨?_, ?_, ?_⟩
  · intro products
    simpa using foldl_add_eq_sum (fun p => jsPrice p * (p.stock : Rat)) products 0
  · intro limit products
    simp [getTopProductsByValue, List.length_take, List.length_mergeSort]
  · intro limit products
    simp only [getTopProductsByValue, List.length_take, List.length_mergeSort]
    exact Nat.min_le_left _ _

end Estoque
